import Mathlib

/-!
Shallow embedding of the scenario simulation engine
(`backend/app/services/simulation_service.py`): data model, the
`SimulationEngine` transition logic (`start`, `execute_action` and its
per-node-type handlers, `_get_node_data`, `_get_next_node`,
`_validate_input`), the service-level `reset_simulation`, and the
coverage computation of `validate_simulation`.

Modelling conventions:
* Python values reaching the engine (`value` arguments, session entries)
  are modelled by `Value` (a string or `None`); `str(x)` is `Value.toStr`.
* Wall-clock instants (`time.time()`, `datetime.utcnow()`) are abstract
  `Nat` ticks supplied by the caller of each operation.
* Dicts keyed by strings are association lists; assignment is `setKey`
  (replace-or-append, preserving Python dict key order), lookup `lookupKey`.
* A raised exception is modelled by returning the mutated engine paired
  with `some` error: mutations performed before the raise persist,
  exactly as in Python.
-/

namespace IVRSim

/-- A Python value as it flows through the engine: a string or `None`.
The claims under study only exercise these. -/
inductive Value where
  | vStr (s : String)
  | vNone
deriving DecidableEq, Repr

/-- Models Python `str(value)` for the values above (`str(None) = "None"`). -/
def Value.toStr : Value → String
  | .vStr s => s
  | .vNone => "None"

/-- One entry of a branch node's `config.branches` list (`{key, label, target}`).
`key` is stored as the string image `str(branch.get("key"))` under which the
source compares it; `target` is `none` when the `"target"` key is absent. -/
structure BranchEntry where
  key : String
  label : String
  target : Option String
deriving DecidableEq, Repr

/-- A node's `config` dict, with the keys the engine consults:
`config.get("branches", [])`, `config.get("input_type", "text")`,
`config.get("target", "general")`, `config.get("prompt", ...)`. -/
structure NodeConfig where
  branches : List BranchEntry
  input_type : Option String
  target : Option String
  prompt : Option String
deriving DecidableEq, Repr

/-- The empty `config` dict. -/
def NodeConfig.empty : NodeConfig := ⟨[], none, none, none⟩

/-- A scenario node record as consumed by the engine. `node_type` is the
string value of the `NodeType` enum (start, message, branch, input,
transfer, end). -/
structure Node where
  node_id : String
  node_type : String
  name : String
  config : NodeConfig
deriving DecidableEq, Repr

/-- A scenario connection record (`source_node_id`, `target_node_id`). -/
structure Connection where
  source_node_id : String
  target_node_id : String
deriving DecidableEq, Repr

/-- The scenario snapshot handed to the engine:
`scenario_data.get("nodes", [])` and `scenario_data.get("connections", [])`,
both in their original insertion order. -/
structure ScenarioData where
  nodes : List Node
  connections : List Connection
deriving DecidableEq, Repr

/-- Engine status strings: "idle", "active", "completed", "transferred". -/
inductive Status where
  | idle
  | active
  | completed
  | transferred
deriving DecidableEq, Repr

/-- One `execution_history` step:
`{timestamp, node_id, action_type, value, additional_data}`. -/
structure HistoryEntry where
  timestamp : Nat
  node_id : String
  action_type : String
  value : Value
  additional_data : List (String × Value)
deriving DecidableEq, Repr

/-- The mutable state of one `SimulationEngine` instance. `current_node`
is initialised to `None` in Python and only ever read after `start` has
assigned it; the pre-start placeholder here is the empty string. -/
structure Engine where
  scenario : ScenarioData
  config : List (String × Value)
  current_node : String
  session_data : List (String × Value)
  execution_history : List HistoryEntry
  start_time : Nat
  status : Status
deriving DecidableEq, Repr

/-- The errors the engine raises (`SimulationError` with the given message). -/
inductive SimError where
  | notActive
  | nodeNotFound (id : String)
  | unsupportedNodeType (t : String)
  | invalidBranchSelection (v : Value)
  | invalidInput
deriving DecidableEq, Repr

/-- Python dict assignment `d[k] = v` on an association list: replace the
first binding of `k` in place, else append. -/
def setKey : List (String × Value) → String → Value → List (String × Value)
  | [], k, v => [(k, v)]
  | (k0, v0) :: rest, k, v =>
      if k0 == k then (k0, v) :: rest else (k0, v0) :: setKey rest k v

/-- Python dict read `d.get(k)` on an association list. -/
def lookupKey : List (String × Value) → String → Option Value
  | [], _ => none
  | (k0, v0) :: rest, k => if k0 == k then some v0 else lookupKey rest k

/-- `SimulationEngine._get_node_data`: first node whose `node_id` matches. -/
def getNodeData : List Node → String → Option Node
  | [], _ => none
  | n :: rest, id => if n.node_id == id then some n else getNodeData rest id

/-- `SimulationEngine._get_next_node`: the `target_node_id` of the first
connection in list order whose `source_node_id` matches, else `none`. -/
def getNextNode : List Connection → String → Option String
  | [], _ => none
  | c :: rest, id =>
      if c.source_node_id == id then some c.target_node_id
      else getNextNode rest id

/-- Models `datetime.utcnow().isoformat()` as an injective rendering of the
abstract clock tick. -/
def isoTimestamp (t : Nat) : String := toString t

/-- Python `str.strip()` on a character list: drop leading and trailing
whitespace. -/
def listTrim (cs : List Char) : List Char :=
  ((cs.dropWhile Char.isWhitespace).reverse.dropWhile Char.isWhitespace).reverse

/-- Digits of a float literal's exponent, after an optional sign. -/
def pyFloatExpDigits (cs : List Char) : Bool :=
  let cs := match cs with
    | '+' :: r => r
    | '-' :: r => r
    | r => r
  let (ds, rest) := cs.span Char.isDigit
  !ds.isEmpty && rest.isEmpty

/-- Exponent suffix of a Python float literal: empty, or `e`/`E`, an
optional sign, and one or more digits. -/
def pyFloatExp : List Char → Bool
  | [] => true
  | 'e' :: rest => pyFloatExpDigits rest
  | 'E' :: rest => pyFloatExpDigits rest
  | _ => false

/-- Numeric part of a Python float literal after the optional sign:
digits, an optional point with further digits (at least one digit in
total), and an optional exponent. (Underscore digit separators, which
Python also accepts, are not modelled; no claim exercises them.) -/
def pyFloatNumber (cs : List Char) : Bool :=
  let (ip, rest) := cs.span Char.isDigit
  match rest with
  | '.' :: rest2 =>
      let (fp, rest3) := rest2.span Char.isDigit
      (!ip.isEmpty || !fp.isEmpty) && pyFloatExp rest3
  | _ => !ip.isEmpty && pyFloatExp rest

/-- Models acceptance of the Python builtin `float(s)` on a string:
surrounding whitespace is stripped, then an optional sign followed by
`inf`, `infinity`, `nan` (case-insensitive) or a numeric literal. -/
def pyFloatOk (s : String) : Bool :=
  let cs := listTrim s.toList
  let cs := match cs with
    | '+' :: r => r
    | '-' :: r => r
    | r => r
  let l := cs.map Char.toLower
  l == ['i', 'n', 'f'] ||
  l == ['i', 'n', 'f', 'i', 'n', 'i', 't', 'y'] ||
  l == ['n', 'a', 'n'] ||
  pyFloatNumber cs

/-- A digit run with length between `lo` and `hi`. -/
def digitRun (cs : List Char) (lo hi : Nat) : Bool :=
  cs.all Char.isDigit && lo ≤ cs.length && cs.length ≤ hi

/-- Split a character list at every dash, keeping empty groups, as
Python `s.split("-")`. -/
def splitOnDash : List Char → List (List Char)
  | [] => [[]]
  | c :: rest =>
      let r := splitOnDash rest
      if c == '-' then [] :: r
      else
        match r with
        | g :: gs => (c :: g) :: gs
        | [] => [[c]]

/-- The phone shape `\d{2,3}-\d{3,4}-\d{4}` as a full match. Because the
three groups contain no dash, splitting on the dashes is an exact
rendering of the regex. -/
def phoneShape (cs : List Char) : Bool :=
  match splitOnDash cs with
  | [a, b, c] => digitRun a 2 3 && digitRun b 3 4 && digitRun c 4 4
  | _ => false

/-- Models `bool(re.match(r"^\d{2,3}-\d{3,4}-\d{4}$", s))`: in Python,
`$` also matches just before a single trailing newline. -/
def phoneMatch (s : String) : Bool :=
  let cs := s.toList
  phoneShape cs || (cs.getLast? == some '\n' && phoneShape cs.dropLast)

/-- `SimulationEngine._validate_input(value, input_type, config)`. -/
def validateInput (value : Value) (inputType : String) : Bool :=
  if inputType == "text" then
    match value with
    | .vStr s => !(listTrim s.toList).isEmpty
    | .vNone => false
  else if inputType == "number" then
    match value with
    | .vStr s => pyFloatOk s
    | .vNone => false
  else if inputType == "phone" then
    phoneMatch value.toStr
  else
    true

/-- A fresh `SimulationEngine(scenario_data, config)` before `start`. -/
def mkEngine (s : ScenarioData) (cfg : List (String × Value)) : Engine :=
  { scenario := s
    config := cfg
    current_node := ""
    session_data := []
    execution_history := []
    start_time := 0
    status := Status.idle }

/-- `SimulationEngine.start(start_node_id)` at clock instant `now`. -/
def startEngine (eng : Engine) (startNodeId : String) (now : Nat) : Engine :=
  { eng with
      current_node := startNodeId
      status := Status.active
      session_data := []
      execution_history := []
      start_time := now }

/-- `SimulationEngine._handle_message_node`.  On "continue" the engine
moves to the first outgoing connection's target when that is truthy
(non-empty), else completes; any other action type is a silent no-op. -/
def handleMessageNode (eng : Engine) (actionType : String) :
    Engine × Option SimError :=
  if actionType == "continue" then
    match getNextNode eng.scenario.connections eng.current_node with
    | some next =>
        if next == "" then ({ eng with status := Status.completed }, none)
        else ({ eng with current_node := next }, none)
    | none => ({ eng with status := Status.completed }, none)
  else
    (eng, none)

/-- `SimulationEngine._handle_branch_node`.  On "select" the first branch
whose `str(key)` equals `str(value)` is taken: when its `target` is truthy
the cursor moves there and the selection is recorded under
`branch_{new current node}_selection`; a falsy target is a silent no-op;
no matching key raises.  Other action types are silent no-ops. -/
def handleBranchNode (eng : Engine) (nd : Node) (actionType : String)
    (value : Value) : Engine × Option SimError :=
  if actionType == "select" then
    match nd.config.branches.find? (fun b => b.key == value.toStr) with
    | some b =>
        match b.target with
        | some t =>
            if t == "" then (eng, none)
            else
              ({ eng with
                  current_node := t
                  session_data :=
                    setKey eng.session_data ("branch_" ++ t ++ "_selection") value },
               none)
        | none => (eng, none)
    | none => (eng, some (SimError.invalidBranchSelection value))
  else
    (eng, none)

/-- `SimulationEngine._handle_input_node`.  On "input" the value is
validated against `config.get("input_type", "text")`; on success it is
stored under `input_{current node}` and the cursor advances like a
message node; on failure the engine raises.  Other action types are
silent no-ops. -/
def handleInputNode (eng : Engine) (nd : Node) (actionType : String)
    (value : Value) : Engine × Option SimError :=
  if actionType == "input" then
    if validateInput value (nd.config.input_type.getD "text") then
      let eng1 :=
        { eng with
            session_data :=
              setKey eng.session_data ("input_" ++ eng.current_node) value }
      match getNextNode eng1.scenario.connections eng1.current_node with
      | some next =>
          if next == "" then ({ eng1 with status := Status.completed }, none)
          else ({ eng1 with current_node := next }, none)
      | none => ({ eng1 with status := Status.completed }, none)
    else
      (eng, some SimError.invalidInput)
  else
    (eng, none)

/-- `SimulationEngine._handle_transfer_node`. -/
def handleTransferNode (eng : Engine) (nd : Node) (actionType : String)
    (now : Nat) : Engine × Option SimError :=
  if actionType == "transfer" then
    let sd := setKey eng.session_data "transfer_target"
        (Value.vStr (nd.config.target.getD "general"))
    let sd := setKey sd "transfer_time" (Value.vStr (isoTimestamp now))
    ({ eng with session_data := sd, status := Status.transferred }, none)
  else
    (eng, none)

/-- `SimulationEngine._handle_end_node`: completes on any action type. -/
def handleEndNode (eng : Engine) (now : Nat) : Engine × Option SimError :=
  ({ eng with
      status := Status.completed
      session_data :=
        setKey eng.session_data "completion_time" (Value.vStr (isoTimestamp now)) },
   none)

/-- `SimulationEngine.execute_action(action_type, value, additional_data)`
at clock instant `now`.  The result pairs the engine state after the call
(mutations made before a raise persist) with the raised error, if any. -/
def executeAction (eng : Engine) (actionType : String) (value : Value)
    (additionalData : Option (List (String × Value))) (now : Nat) :
    Engine × Option SimError :=
  if eng.status ≠ Status.active then
    (eng, some SimError.notActive)
  else
    match getNodeData eng.scenario.nodes eng.current_node with
    | none => (eng, some (SimError.nodeNotFound eng.current_node))
    | some nd =>
        let step : HistoryEntry :=
          { timestamp := now
            node_id := eng.current_node
            action_type := actionType
            value := value
            additional_data := additionalData.getD [] }
        let eng1 := { eng with execution_history := eng.execution_history ++ [step] }
        if nd.node_type == "message" then handleMessageNode eng1 actionType
        else if nd.node_type == "branch" then handleBranchNode eng1 nd actionType value
        else if nd.node_type == "input" then handleInputNode eng1 nd actionType value
        else if nd.node_type == "transfer" then handleTransferNode eng1 nd actionType now
        else if nd.node_type == "end" then handleEndNode eng1 now
        else (eng1, some (SimError.unsupportedNodeType nd.node_type))

/-- The `if not start_node_id:` fallback of `reset_simulation`: restart
at the first node of type "start", or fail (`none`, a `ValidationError`)
when there is none. -/
def resetFallback (eng : Engine) (now : Nat) : Option Engine :=
  match eng.scenario.nodes.find? (fun n => n.node_type == "start") with
  | some n => some (startEngine eng n.node_id now)
  | none => none

/-- `SimulationService.reset_simulation`: the `if not start_node_id:`
guard treats both an absent id and a falsy (empty-string) id as missing
and takes the start-node fallback; only a truthy id restarts the engine
there directly. -/
def resetSimulation (eng : Engine) (startNodeId : Option String) (now : Nat) :
    Option Engine :=
  match startNodeId with
  | some sid =>
      if sid == "" then resetFallback eng now
      else some (startEngine eng sid now)
  | none => resetFallback eng now

/-- The distinct node ids visited in the execution history, as Python's
set comprehension over the steps (first occurrences, in order). -/
def distinctVisited (eng : Engine) : List String :=
  (eng.execution_history.map (fun h => h.node_id)).dedup

/-- The `coverage` field of `SimulationService.validate_simulation`:
`len(executed_nodes) / len(nodes) * 100 if nodes else 0`, with the
division taken in exact rational arithmetic. -/
def coverage (eng : Engine) : ℚ :=
  if eng.scenario.nodes.isEmpty then 0
  else ((distinctVisited eng).length : ℚ) / (eng.scenario.nodes.length : ℚ) * 100

/-- One `execute_action` call as data, for reasoning about call sequences. -/
structure ActionCall where
  actionType : String
  value : Value
  additionalData : Option (List (String × Value))
  time : Nat
deriving DecidableEq, Repr

/-- Run a sequence of `execute_action` calls, keeping the engine state
each call leaves behind (raises included, as in the live service, which
keeps the engine in its registry after a failed action). -/
def runActions (eng : Engine) : List ActionCall → Engine
  | [] => eng
  | a :: rest =>
      runActions (executeAction eng a.actionType a.value a.additionalData a.time).1 rest

/-- `id` is the `node_id` of some node of the scenario. -/
def hasNode (s : ScenarioData) (id : String) : Bool :=
  s.nodes.any (fun n => n.node_id == id)

/-- Every connection target and every branch target mentioned in the
scenario resolves to a node of the scenario. -/
def graphClosed (s : ScenarioData) : Bool :=
  s.connections.all (fun c => hasNode s c.target_node_id) &&
  s.nodes.all (fun n =>
    n.config.branches.all (fun b =>
      match b.target with
      | some t => hasNode s t
      | none => true))

/-! Concrete scenarios used by counterexamples and witnesses. -/

/-- The branch scenario of the spec's branch-exactness property: a branch
node `b0` with keys `"1" → n2` and `"2" → n3`, and message nodes `n2`, `n3`. -/
def scnBranchPair : ScenarioData :=
  { nodes :=
      [ { node_id := "b0", node_type := "branch", name := "Menu",
          config :=
            { branches :=
                [ { key := "1", label := "Sales", target := some "n2" },
                  { key := "2", label := "Support", target := some "n3" } ]
              input_type := none, target := none, prompt := none } },
        { node_id := "n2", node_type := "message", name := "Sales",
          config := NodeConfig.empty },
        { node_id := "n3", node_type := "message", name := "Support",
          config := NodeConfig.empty } ]
    connections := [] }

/-- The engine of `scnBranchPair`, started at the branch node. -/
def engBranchPair : Engine := startEngine (mkEngine scnBranchPair []) "b0" 0

/-- A branch node whose single branch matches key "1" but carries the
empty target string — falsy under Python's `if target_node:` check. -/
def scnBranchFalsy : ScenarioData :=
  { nodes :=
      [ { node_id := "bf", node_type := "branch", name := "BF",
          config :=
            { branches := [ { key := "1", label := "X", target := some "" } ]
              input_type := none, target := none, prompt := none } } ]
    connections := [] }

/-- The engine of `scnBranchFalsy`, started at the branch node. -/
def engBranchFalsy : Engine := startEngine (mkEngine scnBranchFalsy []) "bf" 0

/-- A branch node whose single branch targets a node id that does not
exist in the scenario. -/
def scnDangling : ScenarioData :=
  { nodes :=
      [ { node_id := "b", node_type := "branch", name := "B",
          config :=
            { branches := [ { key := "1", label := "X", target := some "ghost" } ]
              input_type := none, target := none, prompt := none } } ]
    connections := [] }

/-- The engine of `scnDangling` after `start("b")` and a successful
`execute_action("select", "1")`: status is still active but the cursor
now reads `"ghost"`, which is not a node of the scenario. -/
def engGhost : Engine :=
  (executeAction (startEngine (mkEngine scnDangling []) "b" 0) "select"
    (Value.vStr "1") none 1).1

/-- A message node `m` with two outgoing connections, to `a1` then `a2`,
in that insertion order. -/
def scnMessagePair : ScenarioData :=
  { nodes :=
      [ { node_id := "m", node_type := "message", name := "M",
          config := NodeConfig.empty },
        { node_id := "a1", node_type := "message", name := "A1",
          config := NodeConfig.empty },
        { node_id := "a2", node_type := "message", name := "A2",
          config := NodeConfig.empty } ]
    connections :=
      [ { source_node_id := "m", target_node_id := "a1" },
        { source_node_id := "m", target_node_id := "a2" } ] }

/-- The engine of `scnMessagePair`, started at `m`. -/
def engMessagePair : Engine := startEngine (mkEngine scnMessagePair []) "m" 0

/-- An input node `i` expecting a phone number, connected to `nx`. -/
def scnPhone : ScenarioData :=
  { nodes :=
      [ { node_id := "i", node_type := "input", name := "Phone",
          config :=
            { branches := [], input_type := some "phone", target := none,
              prompt := some "enter phone" } },
        { node_id := "nx", node_type := "message", name := "Next",
          config := NodeConfig.empty } ]
    connections := [ { source_node_id := "i", target_node_id := "nx" } ] }

/-- The engine of `scnPhone`, started at `i`. -/
def engPhone : Engine := startEngine (mkEngine scnPhone []) "i" 0

/-- A start node, to exercise the dispatch on a node type without a
handler. -/
def scnStart : ScenarioData :=
  { nodes :=
      [ { node_id := "s", node_type := "start", name := "S",
          config := NodeConfig.empty },
        { node_id := "m", node_type := "message", name := "M",
          config := NodeConfig.empty } ]
    connections := [ { source_node_id := "s", target_node_id := "m" } ] }

/-- The engine of `scnStart`, started at `s`. -/
def engStart : Engine := startEngine (mkEngine scnStart []) "s" 0

/-- Five message nodes `n1` … `n5`, with `n1 → n2 → n1` cycling. -/
def scnFive : ScenarioData :=
  { nodes :=
      [ { node_id := "n1", node_type := "message", name := "N1",
          config := NodeConfig.empty },
        { node_id := "n2", node_type := "message", name := "N2",
          config := NodeConfig.empty },
        { node_id := "n3", node_type := "message", name := "N3",
          config := NodeConfig.empty },
        { node_id := "n4", node_type := "message", name := "N4",
          config := NodeConfig.empty },
        { node_id := "n5", node_type := "message", name := "N5",
          config := NodeConfig.empty } ]
    connections :=
      [ { source_node_id := "n1", target_node_id := "n2" },
        { source_node_id := "n2", target_node_id := "n1" } ] }

/-- The engine of `scnFive` after three "continue" steps from `n1`:
the history holds steps at `n1`, `n2`, `n1` — two distinct node ids. -/
def engFive : Engine :=
  runActions (startEngine (mkEngine scnFive []) "n1" 0)
    [ { actionType := "continue", value := Value.vNone, additionalData := none, time := 1 },
      { actionType := "continue", value := Value.vNone, additionalData := none, time := 2 },
      { actionType := "continue", value := Value.vNone, additionalData := none, time := 3 } ]

/-! Helper lemmas. -/

/-- Looking up the key just assigned returns the assigned value. -/
theorem lookupKey_setKey (sd : List (String × Value)) (k : String) (v : Value) :
    lookupKey (setKey sd k v) k = some v := by
  induction sd with
  | nil => simp [setKey, lookupKey]
  | cons p rest ih =>
      obtain ⟨k0, v0⟩ := p
      by_cases h : (k0 == k) = true
      · simp [setKey, lookupKey, h]
      · simp only [setKey, lookupKey, h, Bool.false_eq_true, if_false]
        exact ih

/-- A node returned by `_get_node_data` belongs to the node list. -/
theorem getNodeData_mem {ns : List Node} {id : String} {n : Node}
    (h : getNodeData ns id = some n) : n ∈ ns := by
  induction ns with
  | nil => simp [getNodeData] at h
  | cons n0 rest ih =>
      unfold getNodeData at h
      by_cases h0 : (n0.node_id == id) = true
      · simp [h0] at h
        simp [h]
      · simp [h0] at h
        exact List.mem_cons_of_mem n0 (ih h)

/-- A target returned by `_get_next_node` is the target of some listed
connection. -/
theorem getNextNode_target {cs : List Connection} {id t : String}
    (h : getNextNode cs id = some t) : ∃ c ∈ cs, c.target_node_id = t := by
  induction cs with
  | nil => simp [getNextNode] at h
  | cons c0 rest ih =>
      unfold getNextNode at h
      by_cases h0 : (c0.source_node_id == id) = true
      · simp [h0] at h
        exact ⟨c0, List.mem_cons_self c0 rest, h⟩
      · simp [h0] at h
        obtain ⟨c, hc, hct⟩ := ih h
        exact ⟨c, List.mem_cons_of_mem c0 hc, hct⟩

/-- In a closed graph every connection target is a node id. -/
theorem graphClosed_conn {s : ScenarioData} (hcl : graphClosed s = true)
    {c : Connection} (hc : c ∈ s.connections) :
    hasNode s c.target_node_id = true := by
  unfold graphClosed at hcl
  rw [Bool.and_eq_true, List.all_eq_true, List.all_eq_true] at hcl
  exact hcl.1 c hc

/-- In a closed graph every branch target of every node is a node id. -/
theorem graphClosed_branch {s : ScenarioData} (hcl : graphClosed s = true)
    {n : Node} (hn : n ∈ s.nodes) {b : BranchEntry} (hb : b ∈ n.config.branches)
    {t : String} (ht : b.target = some t) : hasNode s t = true := by
  unfold graphClosed at hcl
  rw [Bool.and_eq_true, List.all_eq_true, List.all_eq_true] at hcl
  have h := hcl.2 n hn
  rw [List.all_eq_true] at h
  have hb2 := h b hb
  rw [ht] at hb2
  exact hb2

/-- The message handler never touches the execution history. -/
theorem handleMessageNode_history (eng : Engine) (a : String) :
    (handleMessageNode eng a).1.execution_history = eng.execution_history := by
  unfold handleMessageNode
  repeat' (first | rfl | split | dsimp only)

/-- The branch handler never touches the execution history. -/
theorem handleBranchNode_history (eng : Engine) (nd : Node) (a : String) (v : Value) :
    (handleBranchNode eng nd a v).1.execution_history = eng.execution_history := by
  unfold handleBranchNode
  repeat' (first | rfl | split | dsimp only)

/-- The input handler never touches the execution history. -/
theorem handleInputNode_history (eng : Engine) (nd : Node) (a : String) (v : Value) :
    (handleInputNode eng nd a v).1.execution_history = eng.execution_history := by
  unfold handleInputNode
  repeat' (first | rfl | split | dsimp only)

/-- The transfer handler never touches the execution history. -/
theorem handleTransferNode_history (eng : Engine) (nd : Node) (a : String) (t : Nat) :
    (handleTransferNode eng nd a t).1.execution_history = eng.execution_history := by
  unfold handleTransferNode
  repeat' (first | rfl | split | dsimp only)

/-- The end handler never touches the execution history. -/
theorem handleEndNode_history (eng : Engine) (t : Nat) :
    (handleEndNode eng t).1.execution_history = eng.execution_history := rfl

/-- `execute_action` never replaces the scenario snapshot. -/
theorem executeAction_scenario (eng : Engine) (a : String) (v : Value)
    (d : Option (List (String × Value))) (t : Nat) :
    (executeAction eng a v d t).1.scenario = eng.scenario := by
  unfold executeAction handleMessageNode handleBranchNode handleInputNode
    handleTransferNode handleEndNode
  repeat' (first | rfl | split | dsimp only)

/-- The transfer handler never moves the cursor. -/
theorem handleTransferNode_current (eng : Engine) (nd : Node) (a : String) (t : Nat) :
    (handleTransferNode eng nd a t).1.current_node = eng.current_node := by
  unfold handleTransferNode
  repeat' (first | rfl | split | dsimp only)

/-- The end handler never moves the cursor. -/
theorem handleEndNode_current (eng : Engine) (t : Nat) :
    (handleEndNode eng t).1.current_node = eng.current_node := rfl

/-- The message handler keeps the cursor inside a closed graph. -/
theorem handleMessageNode_current {s : ScenarioData} (eng : Engine) (a : String)
    (hs : eng.scenario = s) (hcl : graphClosed s = true)
    (hcur : hasNode s eng.current_node = true) :
    hasNode s (handleMessageNode eng a).1.current_node = true := by
  unfold handleMessageNode
  split
  · cases hnext : getNextNode eng.scenario.connections eng.current_node with
    | none => simpa using hcur
    | some nx =>
        by_cases hne : (nx == "") = true
        · simp [hne]
          exact hcur
        · simp [hne]
          obtain ⟨c, hc, hct⟩ := getNextNode_target hnext
          rw [hs] at hc
          subst hct
          exact graphClosed_conn hcl hc
  · simpa using hcur

/-- The branch handler keeps the cursor inside a closed graph, provided
the dispatched node belongs to the graph. -/
theorem handleBranchNode_current {s : ScenarioData} (eng : Engine) (nd : Node)
    (a : String) (v : Value)
    (hs : eng.scenario = s) (hcl : graphClosed s = true) (hmem : nd ∈ s.nodes)
    (hcur : hasNode s eng.current_node = true) :
    hasNode s (handleBranchNode eng nd a v).1.current_node = true := by
  unfold handleBranchNode
  split
  · cases hfind : nd.config.branches.find? (fun b => b.key == v.toStr) with
    | none => simpa using hcur
    | some b =>
        obtain ⟨bk, bl, btgt⟩ := b
        have hb : (⟨bk, bl, btgt⟩ : BranchEntry) ∈ nd.config.branches :=
          List.mem_of_find?_eq_some hfind
        cases btgt with
        | none => simpa using hcur
        | some t =>
            by_cases hne : t = ""
            · simp [hne]
              exact hcur
            · simp [hne]
              exact graphClosed_branch hcl hmem hb rfl
  · simpa using hcur

/-- The input handler keeps the cursor inside a closed graph. -/
theorem handleInputNode_current {s : ScenarioData} (eng : Engine) (nd : Node)
    (a : String) (v : Value)
    (hs : eng.scenario = s) (hcl : graphClosed s = true)
    (hcur : hasNode s eng.current_node = true) :
    hasNode s (handleInputNode eng nd a v).1.current_node = true := by
  unfold handleInputNode
  split
  · split
    · dsimp only
      cases hnext : getNextNode eng.scenario.connections eng.current_node with
      | none => simpa using hcur
      | some nx =>
          by_cases hne : (nx == "") = true
          · simp [hne]
            exact hcur
          · simp [hne]
            obtain ⟨c, hc, hct⟩ := getNextNode_target hnext
            rw [hs] at hc
            subst hct
            exact graphClosed_conn hcl hc
    · simpa using hcur
  · simpa using hcur

/-- One `execute_action` call keeps the cursor inside a closed graph. -/
theorem executeAction_current_valid {s : ScenarioData} (eng : Engine) (a : String)
    (v : Value) (d : Option (List (String × Value))) (t : Nat)
    (hs : eng.scenario = s) (hcl : graphClosed s = true)
    (hcur : hasNode s eng.current_node = true) :
    hasNode s (executeAction eng a v d t).1.current_node = true := by
  unfold executeAction
  split
  · simpa using hcur
  · cases hnd : getNodeData eng.scenario.nodes eng.current_node with
    | none => simpa using hcur
    | some nd =>
        have hmem : nd ∈ s.nodes := by
          rw [← hs]
          exact getNodeData_mem hnd
        dsimp only
        split
        · exact handleMessageNode_current _ a hs hcl hcur
        · split
          · exact handleBranchNode_current _ nd a v hs hcl hmem hcur
          · split
            · exact handleInputNode_current _ nd a v hs hcl hcur
            · split
              · rw [handleTransferNode_current]
                exact hcur
              · split
                · rw [handleEndNode_current]
                  exact hcur
                · exact hcur

/-- A sequence of `execute_action` calls keeps the cursor inside a
closed graph. -/
theorem runActions_current_valid {s : ScenarioData} (hcl : graphClosed s = true) :
    ∀ (acts : List ActionCall) (eng : Engine), eng.scenario = s →
      hasNode s eng.current_node = true →
      hasNode s (runActions eng acts).current_node = true := by
  intro acts
  induction acts with
  | nil =>
      intro eng _ hcur
      exact hcur
  | cons a rest ih =>
      intro eng hs hcur
      unfold runActions
      refine ih _ ?_ ?_
      · rw [executeAction_scenario]
        exact hs
      · exact executeAction_current_valid eng a.actionType a.value a.additionalData
          a.time hs hcl hcur

/-- On an active simulation whose current node is a branch node,
`execute_action` appends the history entry and defers to the branch
handler. -/
theorem executeAction_dispatch_branch (eng : Engine) (a : String) (v : Value)
    (d : Option (List (String × Value))) (t : Nat) (nd : Node)
    (hact : eng.status = Status.active)
    (hnd : getNodeData eng.scenario.nodes eng.current_node = some nd)
    (hty : nd.node_type = "branch") :
    executeAction eng a v d t =
      handleBranchNode
        { eng with
            execution_history := eng.execution_history ++
              [{ timestamp := t, node_id := eng.current_node, action_type := a,
                 value := v, additional_data := d.getD [] }] } nd a v := by
  unfold executeAction
  have hcond : ¬eng.status ≠ Status.active := by simp [hact]
  rw [if_neg hcond, hnd]
  have hm : (nd.node_type == "message") = false := by rw [hty]; rfl
  have hb : (nd.node_type == "branch") = true := by rw [hty]; rfl
  simp [hm, hb]

/-- On an active simulation whose current node is an input node,
`execute_action` appends the history entry and defers to the input
handler. -/
theorem executeAction_dispatch_input (eng : Engine) (a : String) (v : Value)
    (d : Option (List (String × Value))) (t : Nat) (nd : Node)
    (hact : eng.status = Status.active)
    (hnd : getNodeData eng.scenario.nodes eng.current_node = some nd)
    (hty : nd.node_type = "input") :
    executeAction eng a v d t =
      handleInputNode
        { eng with
            execution_history := eng.execution_history ++
              [{ timestamp := t, node_id := eng.current_node, action_type := a,
                 value := v, additional_data := d.getD [] }] } nd a v := by
  unfold executeAction
  have hcond : ¬eng.status ≠ Status.active := by simp [hact]
  rw [if_neg hcond, hnd]
  have hm : (nd.node_type == "message") = false := by rw [hty]; rfl
  have hb : (nd.node_type == "branch") = false := by rw [hty]; rfl
  have hi : (nd.node_type == "input") = true := by rw [hty]; rfl
  simp [hm, hb, hi]

/-! Claim theorems. -/

/-- C1 (amended): `execute_action` fails with
`SimulationError("unsupported node type")` exactly when the current
node's `node_type` has no dispatch row, i.e. is none of message, branch,
input, transfer, end — in particular any action (including "continue")
against a start node fails with that error.  An `action_type` that does
not match the dispatch row of a supported node type does NOT raise: the
handler returns without error (see the counterexample). -/
theorem C1_unsupported_only_missing_row (eng : Engine) (a : String) (v : Value)
    (d : Option (List (String × Value))) (t : Nat) (nd : Node)
    (hact : eng.status = Status.active)
    (hnd : getNodeData eng.scenario.nodes eng.current_node = some nd)
    (hty : nd.node_type ∉ (["message", "branch", "input", "transfer", "end"] : List String)) :
    (executeAction eng a v d t).2 = some (SimError.unsupportedNodeType nd.node_type) := by
  simp only [List.mem_cons, List.not_mem_nil, or_false, not_or] at hty
  obtain ⟨h1, h2, h3, h4, h5⟩ := hty
  unfold executeAction
  have hcond : ¬eng.status ≠ Status.active := by simp [hact]
  rw [if_neg hcond, hnd]
  simp [h1, h2, h3, h4, h5]

/-- Witness for C1: on the start node of `scnStart`, the action
"continue" fails with the unsupported-node-type error. -/
theorem C1_unsupported_only_missing_row_witness :
    (executeAction engStart "continue" Value.vNone none 1).2 =
      some (SimError.unsupportedNodeType "start") :=
  C1_unsupported_only_missing_row engStart "continue" Value.vNone none 1
    { node_id := "s", node_type := "start", name := "S", config := NodeConfig.empty }
    (by decide) (by decide) (by decide)

/-- Counterexample to C1 as stated: on a message node, the non-matching
`action_type` "select" does not fail at all — no `SimulationError` is
raised and the cursor stays put, contradicting the claim that any
action type not matching the dispatch row fails with
`SimulationError("unsupported node type")`. -/
theorem C1_counterexample_mismatched_action_no_error :
    (executeAction engMessagePair "select" (Value.vStr "1") none 1).2 = none ∧
    (executeAction engMessagePair "select" (Value.vStr "1") none 1).1.current_node = "m" := by
  decide

/-- C2 (amended): whenever the simulation is active and the current node
id resolves in the node list, `execute_action` appends exactly one entry
`{timestamp, node_id, action_type, value, additional_data}` to the
execution history before dispatching, so the entry persists even when
the handler subsequently raises.  (When the current node id does not
resolve, the call raises before appending — see the counterexample.) -/
theorem C2_history_always_appended (eng : Engine) (a : String) (v : Value)
    (d : Option (List (String × Value))) (t : Nat)
    (hact : eng.status = Status.active)
    (hnd : getNodeData eng.scenario.nodes eng.current_node ≠ none) :
    (executeAction eng a v d t).1.execution_history =
      eng.execution_history ++
        [{ timestamp := t, node_id := eng.current_node, action_type := a,
           value := v, additional_data := d.getD [] }] := by
  obtain ⟨nd, hnd2⟩ := Option.ne_none_iff_exists'.mp hnd
  unfold executeAction
  have hcond : ¬eng.status ≠ Status.active := by simp [hact]
  rw [if_neg hcond, hnd2]
  dsimp only
  split
  · rw [handleMessageNode_history]
  · split
    · rw [handleBranchNode_history]
    · split
      · rw [handleInputNode_history]
      · split
        · rw [handleTransferNode_history]
        · split
          · rw [handleEndNode_history]
          · rfl

/-- Witness for C2: the failing selection "9" on the branch scenario
still appends exactly its one history entry. -/
theorem C2_history_always_appended_witness :
    engBranchPair.status = Status.active ∧
    (executeAction engBranchPair "select" (Value.vStr "9") none 7).1.execution_history =
      engBranchPair.execution_history ++
        [{ timestamp := 7, node_id := "b0", action_type := "select",
           value := Value.vStr "9", additional_data := [] }] :=
  ⟨by decide,
   C2_history_always_appended engBranchPair "select" (Value.vStr "9") none 7
     (by decide) (by decide)⟩

/-- Counterexample to C2 as stated: `engGhost` is an active simulation
(reached by `start("b")` and a successful branch selection towards a
dangling target), yet the next `execute_action` fails with a
`SimulationError` (node not found) and appends NO history entry — the
history keeps its single earlier entry instead of gaining one. -/
theorem C2_counterexample_no_append_on_missing_node :
    engGhost.status = Status.active ∧
    (executeAction engGhost "continue" Value.vNone none 2).2 =
      some (SimError.nodeNotFound "ghost") ∧
    (executeAction engGhost "continue" Value.vNone none 2).1.execution_history =
      engGhost.execution_history ∧
    engGhost.execution_history.length = 1 := by
  decide

/-- C3 (amended): on an active branch node, `execute_action("select", v)`
takes the first branch whose key equals `str(v)`.  When the matched
entry carries a truthy (non-empty) target, the cursor moves there, the
selection is recorded under `branch_{target}_selection`, and no error is
raised; when the matched entry's target is absent or the empty string,
the engine silently changes nothing (no move, no session write, no
error) — the source's `if target_node:` check; when no key matches, the
call fails with `SimulationError("invalid branch selection")`, for every
value.  On the concrete config `[{key: "1", target: n2}, {key: "2",
target: n3}]` selecting "2" moves to n3 recording
`branch_n3_selection = "2"` and the unmatched "9" fails. -/
theorem C3_branch_select_spec :
    (∀ (eng : Engine) (v : Value) (nd : Node) (b : BranchEntry) (tgt : String) (tm : Nat),
      eng.status = Status.active →
      getNodeData eng.scenario.nodes eng.current_node = some nd →
      nd.node_type = "branch" →
      nd.config.branches.find? (fun e => e.key == v.toStr) = some b →
      b.target = some tgt → tgt ≠ "" →
      (executeAction eng "select" v none tm).1.current_node = tgt ∧
      lookupKey (executeAction eng "select" v none tm).1.session_data
        ("branch_" ++ tgt ++ "_selection") = some v ∧
      (executeAction eng "select" v none tm).2 = none) ∧
    (∀ (eng : Engine) (v : Value) (nd : Node) (b : BranchEntry) (tm : Nat),
      eng.status = Status.active →
      getNodeData eng.scenario.nodes eng.current_node = some nd →
      nd.node_type = "branch" →
      nd.config.branches.find? (fun e => e.key == v.toStr) = some b →
      (b.target = none ∨ b.target = some "") →
      (executeAction eng "select" v none tm).2 = none ∧
      (executeAction eng "select" v none tm).1.current_node = eng.current_node ∧
      (executeAction eng "select" v none tm).1.session_data = eng.session_data) ∧
    (∀ (eng : Engine) (v : Value) (nd : Node) (tm : Nat),
      eng.status = Status.active →
      getNodeData eng.scenario.nodes eng.current_node = some nd →
      nd.node_type = "branch" →
      nd.config.branches.find? (fun e => e.key == v.toStr) = none →
      (executeAction eng "select" v none tm).2 =
        some (SimError.invalidBranchSelection v) ∧
      (executeAction eng "select" v none tm).1.current_node = eng.current_node) ∧
    (executeAction engBranchPair "select" (Value.vStr "2") none 1).1.current_node = "n3" ∧
    lookupKey (executeAction engBranchPair "select" (Value.vStr "2") none 1).1.session_data
      "branch_n3_selection" = some (Value.vStr "2") ∧
    (executeAction engBranchPair "select" (Value.vStr "9") none 1).2 =
      some (SimError.invalidBranchSelection (Value.vStr "9")) := by
  refine ⟨?_, ?_, ?_, by decide, by decide, by decide⟩
  · intro eng v nd b tgt tm hact hnd hty hfind htgt hne
    rw [executeAction_dispatch_branch eng "select" v none tm nd hact hnd hty]
    unfold handleBranchNode
    rw [if_pos (show ("select" == "select") = true from rfl), hfind]
    dsimp only
    rw [htgt]
    dsimp only
    have hne2 : ¬((tgt == "") = true) := by simp [hne]
    rw [if_neg hne2]
    exact ⟨rfl, lookupKey_setKey _ _ _, rfl⟩
  · intro eng v nd b tm hact hnd hty hfind htgt
    rw [executeAction_dispatch_branch eng "select" v none tm nd hact hnd hty]
    unfold handleBranchNode
    rw [if_pos (show ("select" == "select") = true from rfl), hfind]
    dsimp only
    cases htgt with
    | inl h =>
        rw [h]
        exact ⟨rfl, rfl, rfl⟩
    | inr h =>
        rw [h]
        dsimp only
        rw [if_pos (show (("" : String) == "") = true from rfl)]
        exact ⟨rfl, rfl, rfl⟩
  · intro eng v nd tm hact hnd hty hfind
    rw [executeAction_dispatch_branch eng "select" v none tm nd hact hnd hty]
    unfold handleBranchNode
    rw [if_pos (show ("select" == "select") = true from rfl), hfind]
    exact ⟨rfl, rfl⟩

/-- Witness for C3: the successful selection "2" and the failing
selection "9" on the branch scenario, through the theorem's on-match and
no-match clauses. -/
theorem C3_branch_select_spec_witness :
    ((executeAction engBranchPair "select" (Value.vStr "2") none 1).1.current_node = "n3" ∧
     lookupKey (executeAction engBranchPair "select" (Value.vStr "2") none 1).1.session_data
       "branch_n3_selection" = some (Value.vStr "2") ∧
     (executeAction engBranchPair "select" (Value.vStr "2") none 1).2 = none) ∧
    ((executeAction engBranchPair "select" (Value.vStr "9") none 1).2 =
       some (SimError.invalidBranchSelection (Value.vStr "9")) ∧
     (executeAction engBranchPair "select" (Value.vStr "9") none 1).1.current_node =
       engBranchPair.current_node) :=
  ⟨C3_branch_select_spec.1 engBranchPair (Value.vStr "2")
    { node_id := "b0", node_type := "branch", name := "Menu",
      config :=
        { branches :=
            [ { key := "1", label := "Sales", target := some "n2" },
              { key := "2", label := "Support", target := some "n3" } ]
          input_type := none, target := none, prompt := none } }
    { key := "2", label := "Support", target := some "n3" } "n3" 1
    (by decide) (by decide) (by decide) (by decide) (by decide) (by decide),
   C3_branch_select_spec.2.2.1 engBranchPair (Value.vStr "9")
    { node_id := "b0", node_type := "branch", name := "Menu",
      config :=
        { branches :=
            [ { key := "1", label := "Sales", target := some "n2" },
              { key := "2", label := "Support", target := some "n3" } ]
          input_type := none, target := none, prompt := none } } 1
    (by decide) (by decide) (by decide) (by decide)⟩

/-- Counterexample to C3 as stated: on a branch whose matched entry
carries the falsy target "", the claimed "on match current_node_id
becomes that entry's target" fails — selecting key "1" matches, yet the
engine raises nothing and leaves the cursor on "bf" instead of assigning
the entry's target. -/
theorem C3_counterexample_falsy_target_no_move :
    (executeAction engBranchFalsy "select" (Value.vStr "1") none 1).2 = none ∧
    (executeAction engBranchFalsy "select" (Value.vStr "1") none 1).1.current_node = "bf" := by
  decide

/-- C4: on an active input node, `execute_action("input", v)` validates
`v` against `config.input_type` (text: non-empty after trimming;
number: accepted by `float`; phone: the regex shape; any other type:
always valid).  On success it stores the value under
`input_{current node}`, raises nothing, and advances via the first
outgoing connection (completing when there is none); on failure it
raises `SimulationError` and leaves the cursor unchanged. -/
theorem C4_input_validation_gate :
    (∀ (eng : Engine) (v : Value) (nd : Node) (tm : Nat),
      eng.status = Status.active →
      getNodeData eng.scenario.nodes eng.current_node = some nd →
      nd.node_type = "input" →
      (validateInput v (nd.config.input_type.getD "text") = true →
        (executeAction eng "input" v none tm).2 = none ∧
        lookupKey (executeAction eng "input" v none tm).1.session_data
          ("input_" ++ eng.current_node) = some v ∧
        ((getNextNode eng.scenario.connections eng.current_node).elim
          ((executeAction eng "input" v none tm).1.status = Status.completed)
          (fun nx =>
            if nx = "" then (executeAction eng "input" v none tm).1.status = Status.completed
            else (executeAction eng "input" v none tm).1.current_node = nx))) ∧
      (validateInput v (nd.config.input_type.getD "text") = false →
        (executeAction eng "input" v none tm).2 = some SimError.invalidInput ∧
        (executeAction eng "input" v none tm).1.current_node = eng.current_node)) ∧
    (∀ (v : Value) (ty : String), ty ∉ (["text", "number", "phone"] : List String) →
      validateInput v ty = true) ∧
    validateInput (Value.vStr "010-1234-5678") "phone" = true ∧
    validateInput (Value.vStr "not-a-phone") "phone" = false := by
  refine ⟨?_, ?_, by decide, by decide⟩
  · intro eng v nd tm hact hnd hty
    rw [executeAction_dispatch_input eng "input" v none tm nd hact hnd hty]
    unfold handleInputNode
    rw [if_pos (show ("input" == "input") = true from rfl)]
    constructor
    · intro hval
      rw [if_pos hval]
      dsimp only
      cases hnext : getNextNode eng.scenario.connections eng.current_node with
      | none =>
          exact ⟨rfl, lookupKey_setKey _ _ _, rfl⟩
      | some nx =>
          dsimp only
          by_cases hne : nx = ""
          · have h1 : ((nx == "") = true) := by simp [hne]
            rw [if_pos h1]
            refine ⟨rfl, lookupKey_setKey _ _ _, ?_⟩
            dsimp only [Option.elim]
            rw [if_pos hne]
          · have h1 : ¬((nx == "") = true) := by simp [hne]
            rw [if_neg h1]
            refine ⟨rfl, lookupKey_setKey _ _ _, ?_⟩
            dsimp only [Option.elim]
            rw [if_neg hne]
    · intro hval
      rw [if_neg (by simp [hval])]
      exact ⟨rfl, rfl⟩
  · intro v ty hty
    simp only [List.mem_cons, List.not_mem_nil, or_false, not_or] at hty
    obtain ⟨h1, h2, h3⟩ := hty
    unfold validateInput
    simp [h1, h2, h3]

/-- Witness for C4: on the phone input node, "010-1234-5678" validates,
is stored, and the cursor advances to `nx`; "not-a-phone" fails with
`SimulationError` and leaves the cursor on `i`. -/
theorem C4_input_validation_gate_witness :
    ((executeAction engPhone "input" (Value.vStr "010-1234-5678") none 1).2 = none ∧
     lookupKey (executeAction engPhone "input" (Value.vStr "010-1234-5678") none 1).1.session_data
       "input_i" = some (Value.vStr "010-1234-5678") ∧
     ((getNextNode engPhone.scenario.connections engPhone.current_node).elim
       ((executeAction engPhone "input" (Value.vStr "010-1234-5678") none 1).1.status = Status.completed)
       (fun nx =>
         if nx = "" then
           (executeAction engPhone "input" (Value.vStr "010-1234-5678") none 1).1.status = Status.completed
         else (executeAction engPhone "input" (Value.vStr "010-1234-5678") none 1).1.current_node = nx))) ∧
    ((executeAction engPhone "input" (Value.vStr "not-a-phone") none 2).2 = some SimError.invalidInput ∧
     (executeAction engPhone "input" (Value.vStr "not-a-phone") none 2).1.current_node = engPhone.current_node) :=
  ⟨(C4_input_validation_gate.1 engPhone (Value.vStr "010-1234-5678")
      { node_id := "i", node_type := "input", name := "Phone",
        config :=
          { branches := [], input_type := some "phone", target := none,
            prompt := some "enter phone" } } 1
      (by decide) (by decide) (by decide)).1 (by decide),
   (C4_input_validation_gate.1 engPhone (Value.vStr "not-a-phone")
      { node_id := "i", node_type := "input", name := "Phone",
        config :=
          { branches := [], input_type := some "phone", target := none,
            prompt := some "enter phone" } } 2
      (by decide) (by decide) (by decide)).2 (by decide)⟩

/-- C5 (amended): provided every connection target and every branch
target of the scenario resolves to a node of the scenario
(`graphClosed`) and the start node id resolves, the cursor remains a
valid key into the node set after `start` and any sequence of
`execute_action` calls (and a reset with a resolving start node id
re-establishes the same invariant, being `start`).  Unrestricted the
claim fails: nothing validates start ids or branch targets — see the
counterexample. -/
theorem C5_cursor_stays_valid (s : ScenarioData) (cfg : List (String × Value))
    (startId : String) (t0 : Nat) (acts : List ActionCall)
    (hcl : graphClosed s = true) (hstart : hasNode s startId = true) :
    hasNode s (runActions (startEngine (mkEngine s cfg) startId t0) acts).current_node = true :=
  runActions_current_valid hcl acts _ rfl hstart

/-- Witness for C5: two "continue" steps on the closed two-connection
scenario keep the cursor on a real node. -/
theorem C5_cursor_stays_valid_witness :
    graphClosed scnMessagePair = true ∧
    hasNode scnMessagePair
      (runActions (startEngine (mkEngine scnMessagePair []) "m" 0)
        [ { actionType := "continue", value := Value.vNone, additionalData := none, time := 1 },
          { actionType := "continue", value := Value.vNone, additionalData := none, time := 2 } ]).current_node = true :=
  ⟨by decide,
   C5_cursor_stays_valid scnMessagePair [] "m" 0 _ (by decide) (by decide)⟩

/-- Counterexample to C5 as stated: starting `scnDangling` at its (real)
branch node and selecting key "1" — a successful action — leaves an
active engine whose `current_node` is "ghost", which is NOT the node id
of any node of the scenario. -/
theorem C5_counterexample_dangling_branch_target :
    engGhost.status = Status.active ∧
    hasNode scnDangling engGhost.current_node = false := by
  decide

/-- C6: on a simulation whose status is not active, `execute_action`
fails with `SimulationError("not active")` and returns the engine state
completely untouched — no history entry, unchanged cursor, session data
and status. -/
theorem C6_inactive_rejected (eng : Engine) (a : String) (v : Value)
    (d : Option (List (String × Value))) (t : Nat)
    (h : eng.status ≠ Status.active) :
    executeAction eng a v d t = (eng, some SimError.notActive) := by
  unfold executeAction
  rw [if_pos h]

/-- Witness for C6: a completed simulation rejects "continue"
unchanged. -/
theorem C6_inactive_rejected_witness :
    ({ engStart with status := Status.completed } : Engine).status ≠ Status.active ∧
    executeAction { engStart with status := Status.completed } "continue" Value.vNone none 9 =
      ({ engStart with status := Status.completed }, some SimError.notActive) :=
  ⟨by decide, C6_inactive_rejected _ "continue" Value.vNone none 9 (by decide)⟩

/-- C7: `_get_next_node` returns the first connection in insertion
order whose `source_node_id` matches (it coincides with `List.find?` on
the connection list), it is a pure function — the same value on every
call by construction — and on a message node with connections inserted
in order [to a1, to a2], "continue" moves to a1. -/
theorem C7_first_outgoing_connection :
    (∀ (cs : List Connection) (sid : String),
      getNextNode cs sid =
        (cs.find? (fun c => c.source_node_id == sid)).map (fun c => c.target_node_id)) ∧
    getNextNode scnMessagePair.connections "m" = some "a1" ∧
    (executeAction engMessagePair "continue" Value.vNone none 1).1.current_node = "a1" := by
  refine ⟨?_, by decide, by decide⟩
  intro cs sid
  induction cs with
  | nil => rfl
  | cons c rest ih =>
      unfold getNextNode
      by_cases h : (c.source_node_id == sid) = true
      · simp [h]
      · simp [h, ih]

/-- C8 (amended): `start(n)` sets exactly `current_node = n`,
`status = active`, empty session data, empty history and
`start_time = now`, keeping the scenario graph and engine config, for
every id n; the service-level reset with an explicit TRUTHY (non-empty)
start node id produces exactly the state `start(n)` would, on the same
graph; a reset with the falsy explicit id "" is treated by the
`if not start_node_id:` guard exactly like an omitted id (fallback to
the first start-type node, `ValidationError` when none), not like
`start("")` — see the counterexample. -/
theorem C8_start_and_reset (eng : Engine) (sid : String) (t : Nat)
    (hsid : sid ≠ "") :
    (startEngine eng sid t).current_node = sid ∧
    (startEngine eng sid t).status = Status.active ∧
    (startEngine eng sid t).session_data = [] ∧
    (startEngine eng sid t).execution_history = [] ∧
    (startEngine eng sid t).start_time = t ∧
    (startEngine eng sid t).scenario = eng.scenario ∧
    (startEngine eng sid t).config = eng.config ∧
    resetSimulation eng (some sid) t = some (startEngine eng sid t) ∧
    resetSimulation eng (some "") t = resetSimulation eng none t := by
  refine ⟨rfl, rfl, rfl, rfl, rfl, rfl, rfl, ?_, rfl⟩
  unfold resetSimulation
  dsimp only
  rw [if_neg (by simp [hsid])]

/-- Witness for C8: resetting with the truthy id "m" restarts the
engine exactly there. -/
theorem C8_start_and_reset_witness :
    resetSimulation (mkEngine scnStart []) (some "m") 5 =
      some (startEngine (mkEngine scnStart []) "m" 5) :=
  ((((((((C8_start_and_reset (mkEngine scnStart []) "m" 5
    (by decide)).2).2).2).2).2).2).2).1

/-- Counterexample to C8 as stated: resetting with the explicit empty
id "" does not produce the state `start("")` would.  The truthiness
guard treats "" as absent and redirects to the scenario's first
start-type node "s", while `start("")` would put the cursor on "". -/
theorem C8_counterexample_empty_id_redirects :
    resetSimulation (mkEngine scnStart []) (some "") 5 =
      some (startEngine (mkEngine scnStart []) "s" 5) ∧
    resetSimulation (mkEngine scnStart []) (some "") 5 ≠
      some (startEngine (mkEngine scnStart []) "" 5) := by
  decide

/-- C9: the coverage metric equals the number of distinct node ids in
the execution history, divided by the total node count, times 100 in
exact rational arithmetic, and equals 0 when the node set is empty. -/
theorem C9_coverage_ratio (eng : Engine) :
    (eng.scenario.nodes = [] → coverage eng = 0) ∧
    (eng.scenario.nodes ≠ [] →
      coverage eng =
        ((eng.execution_history.map (fun h => h.node_id)).toFinset.card : ℚ)
          / (eng.scenario.nodes.length : ℚ) * 100) := by
  constructor
  · intro h
    simp [coverage, h]
  · intro h
    have hne : eng.scenario.nodes.isEmpty = false := by
      cases hl : eng.scenario.nodes with
      | nil => exact absurd hl h
      | cons a l => rfl
    unfold coverage
    rw [if_neg (by simp [hne]), List.card_toFinset]
    rfl

/-- Witness for C9: after visiting 2 distinct nodes of 5, coverage is
exactly 40. -/
theorem C9_coverage_ratio_witness :
    engFive.scenario.nodes ≠ [] ∧ coverage engFive = 40 := by
  refine ⟨by decide, ?_⟩
  rw [(C9_coverage_ratio engFive).2 (by decide), List.card_toFinset]
  have h2 : ((engFive.execution_history.map (fun h => h.node_id)).dedup).length = 2 := by
    decide
  have h5 : engFive.scenario.nodes.length = 5 := by decide
  rw [h2, h5]
  norm_num

/-- C10: a failing branch selection — `str(v)` equals no branch key —
raises `SimulationError` and changes nothing beyond appending its single
history entry: cursor, status and session data keep their values
exactly. -/
theorem C10_branch_invalid_selection_atomic (eng : Engine) (v : Value)
    (d : Option (List (String × Value))) (t : Nat) (nd : Node)
    (hact : eng.status = Status.active)
    (hnd : getNodeData eng.scenario.nodes eng.current_node = some nd)
    (hty : nd.node_type = "branch")
    (hfind : nd.config.branches.find? (fun b => b.key == v.toStr) = none) :
    executeAction eng "select" v d t =
      ({ eng with
           execution_history := eng.execution_history ++
             [{ timestamp := t, node_id := eng.current_node, action_type := "select",
                value := v, additional_data := d.getD [] }] },
       some (SimError.invalidBranchSelection v)) := by
  rw [executeAction_dispatch_branch eng "select" v d t nd hact hnd hty]
  unfold handleBranchNode
  rw [if_pos (show ("select" == "select") = true from rfl), hfind]

/-- Witness for C10: selecting "9" on the branch scenario raises the
invalid-selection error and leaves everything except the history
untouched. -/
theorem C10_branch_invalid_selection_atomic_witness :
    executeAction engBranchPair "select" (Value.vStr "9") none 3 =
      ({ engBranchPair with
           execution_history := engBranchPair.execution_history ++
             [{ timestamp := 3, node_id := "b0", action_type := "select",
                value := Value.vStr "9", additional_data := [] }] },
       some (SimError.invalidBranchSelection (Value.vStr "9"))) :=
  C10_branch_invalid_selection_atomic engBranchPair (Value.vStr "9") none 3
    { node_id := "b0", node_type := "branch", name := "Menu",
      config :=
        { branches :=
            [ { key := "1", label := "Sales", target := some "n2" },
              { key := "2", label := "Support", target := some "n3" } ]
          input_type := none, target := none, prompt := none } }
    (by decide) (by decide) (by decide) (by decide)

end IVRSim
